import Mathlib

/-!
# Verification of the region-aggregation core of `src/streamlit.py`

This file gives a shallow embedding, in Lean 4, of the region-resolution and
standardized-aggregation pipeline of the dashboard script `src/streamlit.py`:

* the fixed code/name tables (`CODE_TO_REGION_A`, `CODE_TO_REGION_B`,
  `NAME_TO_REGION`, `NORMNAME_TO_REGION`, `REGION_MAP_1TO5`, `REGION_SIDO_N`),
* the string utilities `first2digits` and `norm_nm`,
* the batch resolver `robust_region_from_records` (three fallback steps with
  coverage thresholds),
* the standardized percentage computation (`raw_counts` / `std_counts` /
  `std_pct`, lines 536-539 of the source),
* the control flow of `build_region_gdf` (CRS normalisation under
  `try/except: pass`, code-then-name tagging, coverage report).

Modelling conventions.  Dataframe cells are the inductive `Cell`
(`null`/`num`/`str`); a pandas float `NaN` arising from division `0/0` is
modelled as `Option.none`, and floating-point arithmetic is modelled by exact
rational arithmetic (all quantities involved are small decimal values, far
from any rounding tie, so the float and rational results agree).  `.round(2)`
of pandas/numpy is round-half-to-even, embedded as `rndHalfEven`.
Geometry values (polygons, `make_valid`, `buffer(0)`, `explode`) are library
calls that the script delegates wholesale; they do not affect any of the
code/name columns that the claims are about and are not modelled.
-/

/-- The five canonical macro-region labels, exactly as the source spells them. -/
def R1 : String := "서울,인천"

def R2 : String := "경기,강원"

def R3 : String := "충청권(충북, 충남, 세종, 대전)"

def R4 : String := "전라권(전북, 전남, 광주)"

def R5 : String := "경상권(경북, 경남, 부산, 대구, 울산, 제주)"

/-- `CODE_TO_REGION_A` (source lines 62-71): scheme A, two-digit code → region. -/
def CODE_TO_REGION_A : List (String × String) :=
  [("11", R1), ("23", R1),
   ("31", R2), ("32", R2),
   ("33", R3), ("34", R3), ("25", R3), ("29", R3),
   ("35", R4), ("36", R4), ("24", R4),
   ("21", R5), ("22", R5), ("26", R5), ("37", R5), ("38", R5), ("39", R5)]

/-- `CODE_TO_REGION_B` (source lines 72-81): scheme B, two-digit code → region. -/
def CODE_TO_REGION_B : List (String × String) :=
  [("11", R1), ("28", R1),
   ("41", R2), ("42", R2),
   ("43", R3), ("44", R3), ("36", R3), ("30", R3),
   ("45", R4), ("46", R4), ("29", R4),
   ("47", R5), ("48", R5), ("26", R5), ("27", R5), ("31", R5), ("50", R5)]

/-- `NAME_TO_REGION` (source lines 82-92): full province name → region. -/
def NAME_TO_REGION : List (String × String) :=
  [("서울특별시", R1), ("인천광역시", R1),
   ("경기도", R2), ("강원특별자치도", R2), ("강원도", R2),
   ("충청북도", R3), ("충청남도", R3),
   ("세종특별자치시", R3), ("대전광역시", R3),
   ("전북특별자치도", R4), ("전라북도", R4),
   ("전라남도", R4), ("광주광역시", R4),
   ("경상북도", R5), ("경상남도", R5),
   ("부산광역시", R5), ("대구광역시", R5),
   ("울산광역시", R5), ("제주특별자치도", R5)]

/-- `NORMNAME_TO_REGION` (source lines 94-103): normalized name → region. -/
def NORMNAME_TO_REGION : List (String × String) :=
  [("서울", R1), ("인천", R1),
   ("경기", R2), ("강원", R2),
   ("충북", R3), ("충남", R3),
   ("세종", R3), ("대전", R3),
   ("전북", R4), ("전남", R4), ("광주", R4),
   ("경북", R5), ("경남", R5),
   ("부산", R5), ("대구", R5),
   ("울산", R5), ("제주", R5)]

/-- `REGION_MAP_1TO5` (source lines 105-111): the direct 1..5 enumeration table. -/
def REGION_MAP_1TO5 : List (Int × String) :=
  [(1, R1), (2, R2), (3, R3), (4, R4), (5, R5)]

/-- `VALID_REGIONS = list(REGION_MAP_1TO5.values())` (source line 112). -/
def VALID_REGIONS : List String := REGION_MAP_1TO5.map Prod.snd

/-- `REGION_SIDO_N` (source line 113): region → number of constituent provinces. -/
def REGION_SIDO_N : List (String × Nat) :=
  [(R1, 2), (R2, 2), (R3, 4), (R4, 3), (R5, 6)]

/-- `first2digits` (source lines 50-52): drop every non-digit character, then
take the first two digits, left-padding with zeros (`zfill(2)`) when fewer
than two digits remain. -/
def first2digits (x : String) : String :=
  let s := x.data.filter Char.isDigit
  if 2 ≤ s.length then ⟨s.take 2⟩ else ⟨List.replicate (2 - s.length) '0' ++ s⟩

/-- Fuel-bounded left-to-right non-overlapping replacement of `pat` by `rep`,
the behaviour of Python `str.replace`.  The fuel is the length of the subject
string, which bounds the number of recursion steps. -/
def replaceAllAux (rep pat : List Char) : Nat → List Char → List Char
  | 0, s => s
  | _ + 1, [] => []
  | fuel + 1, c :: rest =>
      if pat ≠ [] ∧ pat.isPrefixOf (c :: rest) then
        rep ++ replaceAllAux rep pat fuel ((c :: rest).drop pat.length)
      else
        c :: replaceAllAux rep pat fuel rest

/-- Python `s.replace(pat, rep)` on character lists. -/
def replaceAll (s pat rep : List Char) : List Char :=
  replaceAllAux rep pat s.length s

/-- `norm_nm` (source lines 55-59): strip whitespace, then strip the
administrative suffix tokens, in the source's order. -/
def norm_nm (s : String) : String :=
  let noWs := s.data.filter (fun c => ¬ c.isWhitespace)
  let toks : List (List Char) :=
    ["특별자치도".data, "특별자치시".data, "특별시".data, "광역시".data,
     "자치도".data, "도".data, "시".data]
  ⟨toks.foldl (fun acc t => replaceAll acc t []) noWs⟩

/-- A dataframe cell: missing (`NaN`), numeric, or string. -/
inductive Cell
  | null : Cell
  | num : Int → Cell
  | str : String → Cell
  deriving DecidableEq

/-- `pd.to_numeric(·, errors="coerce")` on a cell: numbers pass through,
digit strings parse, everything else coerces to `NaN` (`none`).  (Signed or
decimal string literals do not occur in the datasets modelled here.) -/
def toNumericCell : Cell → Option Int
  | Cell.null => none
  | Cell.num n => some n
  | Cell.str s => (s.toNat?).map Int.ofNat

/-- `astype(str)` on a cell; pandas renders a missing value as `"nan"`. -/
def astypeStr : Cell → String
  | Cell.null => "nan"
  | Cell.num n => toString n
  | Cell.str s => s

/-- `pick_region_mapping` (source lines 115-118): count how many keys of each
scheme occur among the observed two-digit codes (`len(set(TABLE) & codes)`),
pick scheme A only on a strictly larger hit count, otherwise scheme B.
`codes` is read as a set: only membership matters. -/
def a_hits (codes : List String) : Nat :=
  (CODE_TO_REGION_A.map Prod.fst).countP (fun k => k ∈ codes)

/-- Scheme B hit count, see `a_hits`. -/
def b_hits (codes : List String) : Nat :=
  (CODE_TO_REGION_B.map Prod.fst).countP (fun k => k ∈ codes)

/-- The selection itself (source line 118). -/
def pick_region_mapping (codes : List String) : List (String × String) :=
  if a_hits codes > b_hits codes then CODE_TO_REGION_A else CODE_TO_REGION_B

/-- The record batch, as the columns `robust_region_from_records` consults.
Each field is `some column` when the dataframe has that column.  `nrows` is
`len(df)`; in a well-formed frame every present column has `nrows` cells. -/
structure Frame where
  nrows : Nat
  yoyangLoc : Option (List Cell)       -- "요양기관소재지"
  sidoCode : Option (List Cell)        -- "시도코드"
  ctprvnCd : Option (List Cell)        -- "CTPRVN_CD"
  sido : Option (List Cell)            -- "시도"
  sidoNm : Option (List Cell)          -- "시도명"
  ctpKorNm : Option (List Cell)        -- "CTP_KOR_NM"
  gwangyeokSido : Option (List Cell)   -- "광역시도"
  yoyangGwangyeok : Option (List Cell) -- "요양기관광역"

/-- Step 1 of `robust_region_from_records` (source lines 127-133): coerce the
"요양기관소재지" column to numeric, and if any value is non-null, map through
`REGION_MAP_1TO5`; return the mapped column when `mapped.notna().mean() >= 0.8`
(the mean is over the whole column, nulls included). -/
def step1_direct (f : Frame) : Option (List (Option String)) :=
  f.yoyangLoc.bind (fun col =>
    let s := col.map toNumericCell
    if s.any Option.isSome then
      let mapped := s.map (fun v => v.bind (fun n => REGION_MAP_1TO5.lookup n))
      if ((mapped.countP Option.isSome : ℚ) / mapped.length) ≥ 0.8 then
        some mapped
      else none
    else none)

/-- `code_cols[0]`: the first present of "요양기관소재지", "시도코드",
"CTPRVN_CD" (source line 136). -/
def codeCol (f : Frame) : Option (List Cell) :=
  (f.yoyangLoc.orElse fun _ => f.sidoCode).orElse fun _ => f.ctprvnCd

/-- Step 2 of `robust_region_from_records` (source lines 136-143): render the
code column as strings, take the first two digits, select scheme A or B by
majority vote over the observed codes, map, and accept at 60% coverage. -/
def step2_code (f : Frame) : Option (List (Option String)) :=
  (codeCol f).bind (fun col =>
    let two := col.map (fun c => first2digits (astypeStr c))
    let mapping_used := pick_region_mapping two
    let mapped := two.map (fun t => mapping_used.lookup t)
    if ((mapped.countP Option.isSome : ℚ) / mapped.length) ≥ 0.6 then
      some mapped
    else none)

/-- `name_cols[0]`: the first present of "시도", "시도명", "CTP_KOR_NM",
"광역시도", "요양기관광역" (source line 146). -/
def nameCol (f : Frame) : Option (List Cell) :=
  (((f.sido.orElse fun _ => f.sidoNm).orElse fun _ => f.ctpKorNm).orElse
    fun _ => f.gwangyeokSido).orElse fun _ => f.yoyangGwangyeok

/-- The name-mapping body shared with the boundary path: direct lookups first;
only when no row at all matched directly, fall back to the normalized table
(source lines 148-153). -/
def step3_names (names : List String) : List (Option String) :=
  let m1 := names.map (fun s => NAME_TO_REGION.lookup s)
  if m1.any Option.isSome then m1
  else names.map (fun s => NORMNAME_TO_REGION.lookup (norm_nm s))

/-- Step 3 of `robust_region_from_records` (source lines 146-153). -/
def step3_name (f : Frame) : Option (List (Option String)) :=
  (nameCol f).map (fun col => step3_names (col.map astypeStr))

/-- `robust_region_from_records` (source lines 120-155): the three steps in
order, each early-returning on success; otherwise an all-null column. -/
def robust_region_from_records (f : Frame) : List (Option String) :=
  (((step1_direct f).orElse fun _ => step2_code f).orElse
    fun _ => step3_name f).getD (List.replicate f.nrows none)

/-- `df = df[df["권역"].isin(VALID_REGIONS)]` (source line 483): the analysis
population keeps only rows whose resolved region is one of the five labels. -/
def validRegionLabels (labels : List (Option String)) : List String :=
  labels.filterMap (fun o =>
    o.bind (fun r => if r ∈ VALID_REGIONS then some r else none))

/-- Round-half-to-even to an integer, the rounding of numpy/pandas `.round`
and of Python's built-in `round`.  (`Rat.floor` is used rather than `⌊·⌋` so
that the definition evaluates inside the kernel; the two agree.) -/
def rndHalfEven (q : ℚ) : Int :=
  if q - q.floor < 1 / 2 then q.floor
  else if 1 / 2 < q - q.floor then q.floor + 1
  else if q.floor % 2 = 0 then q.floor else q.floor + 1

/-- `.round(2)`: round-half-to-even at the second decimal place. -/
def roundTo2 (q : ℚ) : ℚ := (rndHalfEven (q * 100) : ℚ) / 100

/-- `raw_counts` (source line 536): count the resolved labels, reindexed on
the fixed five-region enumeration with explicit zeros. -/
def raw_counts (regions : List String) : List (String × Nat) :=
  VALID_REGIONS.map (fun r => (r, regions.countP (fun x => x = r)))

/-- One region's raw count. -/
def rawCount (regions : List String) (r : String) : Nat :=
  regions.countP (fun x => x = r)

/-- The standardization divisor of a region.  Every canonical region is a key
of `REGION_SIDO_N`, so the default is never reached. -/
def sidoN (r : String) : ℚ := ((REGION_SIDO_N.lookup r).getD 1 : Nat)

/-- `std_counts` (source line 537): raw count divided by the region's number
of constituent provinces. -/
def std_count (regions : List String) (r : String) : ℚ :=
  (rawCount regions r : ℚ) / sidoN r

/-- `std_counts.sum()`. -/
def std_total (regions : List String) : ℚ :=
  (VALID_REGIONS.map (std_count regions)).sum

/-- `std_pct` (source line 538): `(std_counts / std_counts.sum() * 100).round(2)`.
When the sum is `0` every numerator is also `0` (the counts are non-negative),
so pandas produces `0.0/0.0 = NaN` in every entry; `none` models that `NaN`.
When the sum is non-zero the division is ordinary. -/
def std_pct (regions : List String) (r : String) : Option ℚ :=
  if std_total regions = 0 then none
  else some (roundTo2 (std_count regions r / std_total regions * 100))

/-- The five output rows (region, standardized percentage), in the fixed
enumeration order of `VALID_REGIONS`. -/
def std_pct_rows (regions : List String) : List (String × Option ℚ) :=
  VALID_REGIONS.map (fun r => (r, std_pct regions r))

/-- The decision of the CRS-normalisation branch (source lines 163-170). -/
inductive CrsAction
  | toWGS84Direct : CrsAction        -- declared CRS: `to_crs(epsg=4326)`
  | assume5179ThenWGS84 : CrsAction  -- `set_crs(epsg=5179).to_crs(epsg=4326)`
  | assume4326NoConvert : CrsAction  -- `set_crs(epsg=4326)` only
  deriving DecidableEq

/-- What actually happened to the CRS step: the whole branch sits inside
`try: ... except Exception: pass` (source lines 162-172), so a raising
reprojection leaves the data untouched and the pipeline continues. -/
inductive CrsOutcome
  | applied : CrsAction → CrsOutcome
  | raisedIgnored : CrsOutcome       -- exception swallowed, gdf unchanged
  deriving DecidableEq

/-- The boundary dataset, as `build_region_gdf` observes it.  `readable` is
whether `gpd.read_file` succeeds; `crs` the declared reference system (EPSG
code) if any; `bounds` is `total_bounds = (xmin, ymin, xmax, ymax)`;
`reprojectRaises` whether the set_crs/to_crs call raises; `codes`/`names` the
"CTPRVN_CD" / "CTP_KOR_NM" columns when present. -/
structure GeoInput where
  readable : Bool
  crs : Option Nat
  bounds : ℚ × ℚ × ℚ × ℚ
  reprojectRaises : Bool
  codes : Option (List Cell)
  names : Option (List Cell)
  nrows : Nat

/-- `max(abs(xmin), abs(ymin), abs(xmax), abs(ymax))` (source line 165). -/
def maxAbsBound (g : GeoInput) : ℚ :=
  max (max |g.bounds.1| |g.bounds.2.1|) (max |g.bounds.2.2.1| |g.bounds.2.2.2|)

/-- The CRS decision rule (source lines 163-170): a declared CRS is converted
directly; with no CRS, an extent coordinate of absolute value above 200 means
the Korean projected system EPSG:5179 is assumed first; otherwise the data is
taken to be EPSG:4326 already, with no conversion. -/
def crs_decision (g : GeoInput) : CrsAction :=
  match g.crs with
  | some _ => CrsAction.toWGS84Direct
  | none =>
      if maxAbsBound g > 200 then CrsAction.assume5179ThenWGS84
      else CrsAction.assume4326NoConvert

/-- The CRS step with its `try/except Exception: pass` wrapper. -/
def crs_step (g : GeoInput) : CrsOutcome :=
  if g.reprojectRaises then CrsOutcome.raisedIgnored
  else CrsOutcome.applied (crs_decision g)

/-- Code scheme tag for the coverage report ("사용한_코드매핑"). -/
inductive Scheme
  | A : Scheme
  | B : Scheme
  deriving DecidableEq

/-- Code-based tagging (source lines 188-193): `"권역_code"` is null for every
row when there is no "CTPRVN_CD" column, else the two-digit code mapped
through the majority-voted scheme. -/
def gdfRegionCode (g : GeoInput) : List (Option String) :=
  match g.codes with
  | none => List.replicate g.nrows none
  | some col =>
      let two := col.map (fun c => first2digits (astypeStr c))
      let mapping_used := pick_region_mapping two
      two.map (fun t => mapping_used.lookup t)

/-- Name-based tagging (source lines 196-201): direct name lookup, filled in
per-row by the normalized-name lookup (`name_map1.fillna(name_map2)`). -/
def gdfRegionName (g : GeoInput) : List (Option String) :=
  match g.names with
  | none => List.replicate g.nrows none
  | some col =>
      col.map (fun c =>
        let x := astypeStr c
        (NAME_TO_REGION.lookup x).orElse
          (fun _ => NORMNAME_TO_REGION.lookup (norm_nm x)))

/-- Final tagging (source lines 204-205): code first, name fills the gaps. -/
def gdfRegion (g : GeoInput) : List (Option String) :=
  List.zipWith (fun c n => c.orElse fun _ => n) (gdfRegionCode g) (gdfRegionName g)

/-- `round(·, 1)` at the first decimal place (Python round is half-to-even). -/
def roundTo1 (q : ℚ) : ℚ := (rndHalfEven (q * 10) : ℚ) / 10

/-- `series.notna().mean() * 100`, rounded to one decimal; the mean of an
empty column is `NaN` (`none`). -/
def coveragePct (l : List (Option String)) : Option ℚ :=
  if l.length = 0 then none
  else some (roundTo1 ((l.countP Option.isSome : ℚ) / l.length * 100))

/-- The coverage report of `build_region_gdf` (source lines 208-216).
`unmappedRows` counts the untagged rows (the source additionally lists the
distinct (code, name) pairs of those rows for diagnostics). -/
structure Coverage where
  codeCoveragePct : Option ℚ
  nameCoveragePct : Option ℚ
  finalCoveragePct : Option ℚ
  unmappedRows : Nat
  schemeUsed : Option Scheme
  deriving DecidableEq

/-- The output of `build_region_gdf`: what happened to the CRS, the dissolved
region boundaries (one per distinct mapped region; the geometry union itself
is a library call and is not modelled), and the coverage report. -/
structure BuildOutput where
  crsOutcome : CrsOutcome
  regionBoundaries : List String
  coverage : Coverage
  deriving DecidableEq

/-- `build_region_gdf` (source lines 157-239), as a fallible computation.
`gpd.read_file` (line 159) is outside any `try`, so an unreadable file
raises to the caller.  The CRS step's exceptions are swallowed (`except:
pass`).  Geometry repair and `explode` touch only geometry and are not
modelled.  Line 208 indexes `gdf[["CTPRVN_CD", "CTP_KOR_NM"]]`, which raises
`KeyError` when either column is absent; that exception also propagates. -/
def build_region_gdf (g : GeoInput) : Except String BuildOutput :=
  if g.readable = false then Except.error "read_file raised" else
  let crsOut := crs_step g
  let regionCode := gdfRegionCode g
  let regionName := gdfRegionName g
  let region := gdfRegion g
  match g.codes, g.names with
  | some cs, some _ =>
      Except.ok
        { crsOutcome := crsOut
          regionBoundaries := (region.filterMap id).eraseDups
          coverage :=
            { codeCoveragePct := coveragePct regionCode
              nameCoveragePct := coveragePct regionName
              finalCoveragePct := coveragePct region
              unmappedRows := region.countP Option.isNone
              schemeUsed :=
                let two := cs.map (fun c => first2digits (astypeStr c))
                some (if pick_region_mapping two = CODE_TO_REGION_A
                      then Scheme.A else Scheme.B) } }
  | _, _ => Except.error "KeyError: CTPRVN_CD or CTP_KOR_NM"

/-! ## Helper lemmas -/

lemma rat_floor_eq_floor (q : ℚ) : q.floor = ⌊q⌋ := by
  rw [Rat.floor_def', Rat.floor_def]

lemma abs_rndHalfEven_sub_le (q : ℚ) : |(rndHalfEven q : ℚ) - q| ≤ 1 / 2 := by
  have h1 : ((⌊q⌋ : ℚ)) ≤ q := Int.floor_le q
  have h2 : q < (⌊q⌋ : ℚ) + 1 := Int.lt_floor_add_one q
  unfold rndHalfEven
  rw [rat_floor_eq_floor]
  split_ifs with hlt hgt hev <;> (rw [abs_le]; push_cast; constructor <;> linarith)

lemma abs_roundTo2_sub_le (q : ℚ) : |roundTo2 q - q| ≤ 1 / 200 := by
  have h := abs_rndHalfEven_sub_le (q * 100)
  have : roundTo2 q - q = ((rndHalfEven (q * 100) : ℚ) - q * 100) / 100 := by
    unfold roundTo2; ring
  rw [this, abs_div]
  rw [show |(100 : ℚ)| = 100 by norm_num]
  linarith

/-- Evaluation rule for `rndHalfEven` when the fractional part is below 1/2. -/
lemma rndHalfEven_eq_low (q : ℚ) (n : Int) (h1 : (n : ℚ) ≤ q) (h2 : q < (n : ℚ) + 1 / 2) :
    rndHalfEven q = n := by
  have hf : ⌊q⌋ = n := Int.floor_eq_iff.mpr ⟨h1, by linarith⟩
  unfold rndHalfEven
  rw [rat_floor_eq_floor, hf, if_pos (by linarith)]

/-- Evaluation rule for `rndHalfEven` when the fractional part is above 1/2. -/
lemma rndHalfEven_eq_high (q : ℚ) (n : Int) (h1 : (n : ℚ) + 1 / 2 < q) (h2 : q < (n : ℚ) + 1) :
    rndHalfEven q = n + 1 := by
  have hf : ⌊q⌋ = n := Int.floor_eq_iff.mpr ⟨by linarith, h2⟩
  unfold rndHalfEven
  rw [rat_floor_eq_floor, hf, if_neg (by linarith), if_pos (by linarith)]

lemma validRegions_eq : VALID_REGIONS = [R1, R2, R3, R4, R5] := rfl

lemma sidoN_R1 : sidoN R1 = 2 := by
  simp [sidoN, show REGION_SIDO_N.lookup R1 = some 2 from rfl]

lemma sidoN_R2 : sidoN R2 = 2 := by
  simp [sidoN, show REGION_SIDO_N.lookup R2 = some 2 from rfl]

lemma sidoN_R3 : sidoN R3 = 4 := by
  simp [sidoN, show REGION_SIDO_N.lookup R3 = some 4 from rfl]

lemma sidoN_R4 : sidoN R4 = 3 := by
  simp [sidoN, show REGION_SIDO_N.lookup R4 = some 3 from rfl]

lemma sidoN_R5 : sidoN R5 = 6 := by
  simp [sidoN, show REGION_SIDO_N.lookup R5 = some 6 from rfl]

lemma std_total_eq (regions : List String) :
    std_total regions = std_count regions R1 + std_count regions R2 +
      std_count regions R3 + std_count regions R4 + std_count regions R5 := by
  simp [std_total, validRegions_eq]
  ring

lemma std_total_nil : std_total [] = 0 := by
  rw [std_total_eq]
  simp [std_count, rawCount, sidoN]

lemma std_pct_nil (r : String) : std_pct [] r = none := by
  simp [std_pct, std_total_nil]

lemma std_count_nonneg (regions : List String) (r : String) :
    0 ≤ std_count regions r := by
  unfold std_count sidoN
  exact div_nonneg (Nat.cast_nonneg _) (Nat.cast_nonneg _)

lemma sidoN_pos (r : String) (h : r ∈ VALID_REGIONS) : 0 < sidoN r := by
  rw [validRegions_eq] at h
  simp only [List.mem_cons, List.not_mem_nil, or_false] at h
  rcases h with h | h | h | h | h <;> subst h <;>
    simp only [sidoN_R1, sidoN_R2, sidoN_R3, sidoN_R4, sidoN_R5] <;> norm_num

lemma std_count_pos (regions : List String) (r : String)
    (hr : r ∈ regions) (hv : r ∈ VALID_REGIONS) : 0 < std_count regions r := by
  unfold std_count
  apply div_pos _ (sidoN_pos r hv)
  have : 0 < rawCount regions r := by
    apply List.countP_pos_iff.mpr
    exact ⟨r, hr, by simp⟩
  exact_mod_cast this

lemma std_total_pos (regions : List String) (hne : regions ≠ [])
    (hmem : ∀ r ∈ regions, r ∈ VALID_REGIONS) : 0 < std_total regions := by
  obtain ⟨r0, hr0⟩ := List.exists_mem_of_ne_nil regions hne
  have hv := hmem r0 hr0
  have hpos := std_count_pos regions r0 hr0 hv
  have h1 := std_count_nonneg regions R1
  have h2 := std_count_nonneg regions R2
  have h3 := std_count_nonneg regions R3
  have h4 := std_count_nonneg regions R4
  have h5 := std_count_nonneg regions R5
  rw [std_total_eq]
  have hv' := hv
  rw [validRegions_eq] at hv'
  simp only [List.mem_cons, List.not_mem_nil, or_false] at hv'
  rcases hv' with h | h | h | h | h <;> subst h <;> linarith

/-- **C1** (code bug in `std_pct`, source lines 536-539): on an empty record
batch the sum of the standardized counts is `0`, and the code does **not**
special-case the zero divisor: pandas computes `0.0/0.0 = NaN` (here `none`)
for every region, so the five output rows carry `NaN` rather than the exact
`0` that the specification requires. -/
theorem std_pct_empty_batch_is_nan_not_zero :
    std_total [] = 0 ∧
    std_pct_rows [] = [(R1, none), (R2, none), (R3, none), (R4, none), (R5, none)] ∧
    std_pct_rows [] ≠ [(R1, some 0), (R2, some 0), (R3, some 0), (R4, some 0), (R5, some 0)] := by
  refine ⟨std_total_nil, ?_, ?_⟩ <;>
    simp [std_pct_rows, validRegions_eq, std_pct_nil]

/-- **C6** (code bug on the empty batch, otherwise holds): for every batch the
aggregator emits exactly 5 rows, one per canonical region in the fixed
enumeration order; for every non-empty batch of valid region labels all five
percentages are defined and sum to 100 within ±0.05 (a fortiori within the
±1/20 bound proved here, the rounding error being at most 1/200 per row); but
on the empty batch the five rows carry `NaN` (`none`), not the explicit `0`
the claim states. -/
theorem std_pct_rows_structure_sum_and_empty_nan :
    (∀ regions : List String, (std_pct_rows regions).length = 5 ∧
      (std_pct_rows regions).map Prod.fst = VALID_REGIONS) ∧
    (∀ regions : List String, regions ≠ [] → (∀ r ∈ regions, r ∈ VALID_REGIONS) →
      ∃ ps : List ℚ, (std_pct_rows regions).map Prod.snd = ps.map some ∧
        |ps.sum - 100| ≤ 1 / 20) ∧
    (std_pct_rows []).map Prod.snd = [none, none, none, none, none] := by
  refine ⟨?_, ?_, ?_⟩
  · intro regions
    constructor <;> simp [std_pct_rows, validRegions_eq]
  · intro regions hne hmem
    have htot := std_total_pos regions hne hmem
    have htot' : std_total regions ≠ 0 := ne_of_gt htot
    refine ⟨[roundTo2 (std_count regions R1 / std_total regions * 100),
             roundTo2 (std_count regions R2 / std_total regions * 100),
             roundTo2 (std_count regions R3 / std_total regions * 100),
             roundTo2 (std_count regions R4 / std_total regions * 100),
             roundTo2 (std_count regions R5 / std_total regions * 100)], ?_, ?_⟩
    · simp [std_pct_rows, validRegions_eq, std_pct, htot']
    · have hsum : std_count regions R1 / std_total regions * 100 +
          std_count regions R2 / std_total regions * 100 +
          std_count regions R3 / std_total regions * 100 +
          std_count regions R4 / std_total regions * 100 +
          std_count regions R5 / std_total regions * 100 = 100 := by
        have he := std_total_eq regions
        field_simp
        linarith
      have b1 := abs_roundTo2_sub_le (std_count regions R1 / std_total regions * 100)
      have b2 := abs_roundTo2_sub_le (std_count regions R2 / std_total regions * 100)
      have b3 := abs_roundTo2_sub_le (std_count regions R3 / std_total regions * 100)
      have b4 := abs_roundTo2_sub_le (std_count regions R4 / std_total regions * 100)
      have b5 := abs_roundTo2_sub_le (std_count regions R5 / std_total regions * 100)
      rw [abs_le] at b1 b2 b3 b4 b5 ⊢
      simp only [List.sum_cons, List.sum_nil, add_zero]
      constructor <;> linarith
  · simp [std_pct_rows, validRegions_eq, std_pct_nil]

/-- Witness for the non-empty-batch part of the C6 theorem, at the one-record
batch `[R1]`: all five percentages are defined (no `NaN`). -/
theorem std_pct_rows_structure_sum_witness :
    ((std_pct_rows [R1]).map Prod.snd).all Option.isSome = true := by
  obtain ⟨ps, hps, _⟩ :=
    std_pct_rows_structure_sum_and_empty_nan.2.1 [R1] (by decide) (by decide)
  rw [hps]
  simp [List.all_eq_true]

lemma roundTo2_eq_low (q : ℚ) (n : Int) (h1 : (n : ℚ) ≤ q * 100)
    (h2 : q * 100 < (n : ℚ) + 1 / 2) : roundTo2 q = (n : ℚ) / 100 := by
  unfold roundTo2
  rw [rndHalfEven_eq_low (q * 100) n h1 h2]

lemma roundTo2_eq_high (q : ℚ) (n : Int) (h1 : (n : ℚ) + 1 / 2 < q * 100)
    (h2 : q * 100 < (n : ℚ) + 1) : roundTo2 q = ((n : ℚ) + 1) / 100 := by
  unfold roundTo2
  rw [rndHalfEven_eq_high (q * 100) n h1 h2]
  push_cast
  ring

/-- The 10-record batch of end-to-end scenario 1: "요양기관소재지" holds the
region-indicator values [1,1,2,3,4,5,5,5,2,1] and no other region column is
present. -/
def frameC5 : Frame :=
  ⟨10, some ([1, 1, 2, 3, 4, 5, 5, 5, 2, 1].map Cell.num),
   none, none, none, none, none, none, none⟩

/-- The resolved analysis population of scenario 1. -/
def regionsScenario1 : List String :=
  validRegionLabels (robust_region_from_records frameC5)

lemma robust_region_frameC5 :
    robust_region_from_records frameC5 =
      [some R1, some R1, some R2, some R3, some R4,
       some R5, some R5, some R5, some R2, some R1] := by
  have h1 : step1_direct frameC5 =
      if (((10 : ℕ) : ℚ) / ((10 : ℕ) : ℚ) ≥ 0.8) then
        some [some R1, some R1, some R2, some R3, some R4,
              some R5, some R5, some R5, some R2, some R1]
      else none := rfl
  rw [if_pos (by norm_num)] at h1
  simp [robust_region_from_records, h1]

lemma regionsScenario1_eq :
    regionsScenario1 = [R1, R1, R2, R3, R4, R5, R5, R5, R2, R1] := by
  rw [regionsScenario1, robust_region_frameC5]
  decide

lemma std_count_scenario1 :
    std_count regionsScenario1 R1 = 3 / 2 ∧ std_count regionsScenario1 R2 = 1 ∧
    std_count regionsScenario1 R3 = 1 / 4 ∧ std_count regionsScenario1 R4 = 1 / 3 ∧
    std_count regionsScenario1 R5 = 1 / 2 := by
  have c1 : rawCount regionsScenario1 R1 = 3 := by rw [regionsScenario1_eq]; decide
  have c2 : rawCount regionsScenario1 R2 = 2 := by rw [regionsScenario1_eq]; decide
  have c3 : rawCount regionsScenario1 R3 = 1 := by rw [regionsScenario1_eq]; decide
  have c4 : rawCount regionsScenario1 R4 = 1 := by rw [regionsScenario1_eq]; decide
  have c5 : rawCount regionsScenario1 R5 = 3 := by rw [regionsScenario1_eq]; decide
  refine ⟨?_, ?_, ?_, ?_, ?_⟩ <;> unfold std_count
  · rw [c1, sidoN_R1]; norm_num
  · rw [c2, sidoN_R2]; norm_num
  · rw [c3, sidoN_R3]; norm_num
  · rw [c4, sidoN_R4]; norm_num
  · rw [c5, sidoN_R5]; norm_num

lemma std_total_scenario1 : std_total regionsScenario1 = 43 / 12 := by
  obtain ⟨h1, h2, h3, h4, h5⟩ := std_count_scenario1
  rw [std_total_eq, h1, h2, h3, h4, h5]
  norm_num

/-- **C5** (end-to-end scenario 1): 10 records with region-indicator values
[1,1,2,3,4,5,5,5,2,1] resolve by the direct 1..5 step (coverage 100% ≥ 80%),
giving raw counts {3,2,1,1,3}, standardized by the divisors {2,2,4,3,6} to
{3/2, 1, 1/4, 1/3, 1/2} with sum 43/12, and percentages rounded to 2 decimals
{41.86, 27.91, 6.98, 9.30, 13.95}, summing to exactly 100. -/
theorem pipeline_scenario1 :
    robust_region_from_records frameC5 =
      [some R1, some R1, some R2, some R3, some R4,
       some R5, some R5, some R5, some R2, some R1] ∧
    raw_counts regionsScenario1 = [(R1, 3), (R2, 2), (R3, 1), (R4, 1), (R5, 3)] ∧
    std_total regionsScenario1 = 43 / 12 ∧
    std_pct_rows regionsScenario1 =
      [(R1, some 41.86), (R2, some 27.91), (R3, some 6.98),
       (R4, some 9.30), (R5, some 13.95)] ∧
    ([41.86, 27.91, 6.98, 9.30, 13.95] : List ℚ).sum = 100 := by
  obtain ⟨h1, h2, h3, h4, h5⟩ := std_count_scenario1
  have htot := std_total_scenario1
  have htot' : std_total regionsScenario1 ≠ 0 := by rw [htot]; norm_num
  refine ⟨robust_region_frameC5, ?_, htot, ?_, ?_⟩
  · rw [show raw_counts regionsScenario1 =
        VALID_REGIONS.map (fun r => (r, rawCount regionsScenario1 r)) from rfl]
    rw [regionsScenario1_eq]
    decide
  · have p1 : std_pct regionsScenario1 R1 = some 41.86 := by
      rw [std_pct, if_neg htot', h1, htot]
      rw [show ((3 : ℚ) / 2 / (43 / 12) * 100) = 1800 / 43 by norm_num]
      rw [roundTo2_eq_low (1800 / 43) 4186 (by norm_num) (by norm_num)]
      norm_num
    have p2 : std_pct regionsScenario1 R2 = some 27.91 := by
      rw [std_pct, if_neg htot', h2, htot]
      rw [show ((1 : ℚ) / (43 / 12) * 100) = 1200 / 43 by norm_num]
      rw [roundTo2_eq_high (1200 / 43) 2790 (by norm_num) (by norm_num)]
      norm_num
    have p3 : std_pct regionsScenario1 R3 = some 6.98 := by
      rw [std_pct, if_neg htot', h3, htot]
      rw [show ((1 : ℚ) / 4 / (43 / 12) * 100) = 300 / 43 by norm_num]
      rw [roundTo2_eq_high (300 / 43) 697 (by norm_num) (by norm_num)]
      norm_num
    have p4 : std_pct regionsScenario1 R4 = some 9.30 := by
      rw [std_pct, if_neg htot', h4, htot]
      rw [show ((1 : ℚ) / 3 / (43 / 12) * 100) = 400 / 43 by norm_num]
      rw [roundTo2_eq_low (400 / 43) 930 (by norm_num) (by norm_num)]
      norm_num
    have p5 : std_pct regionsScenario1 R5 = some 13.95 := by
      rw [std_pct, if_neg htot', h5, htot]
      rw [show ((1 : ℚ) / 2 / (43 / 12) * 100) = 600 / 43 by norm_num]
      rw [roundTo2_eq_low (600 / 43) 1395 (by norm_num) (by norm_num)]
      norm_num
    rw [show std_pct_rows regionsScenario1 =
        VALID_REGIONS.map (fun r => (r, std_pct regionsScenario1 r)) from rfl]
    rw [validRegions_eq]
    simp [p1, p2, p3, p4, p5]
  · norm_num

/-- The step-1 acceptance criterion exactly as claim C2 words it: at least 80%
of the *non-null* values map, nulls excluded from the denominator.  This is a
spec-side definition, written from the claim's text for comparison with the
source's `step1_direct`. -/
def step1AcceptedPerClaimC2 (col : List Cell) : Prop :=
  let s := col.map toNumericCell
  let mapped := s.map (fun v => v.bind (fun n => REGION_MAP_1TO5.lookup n))
  ((mapped.countP Option.isSome : ℚ) / (s.countP Option.isSome) ≥ 0.8)

/-- The 10-record batch refuting claim C2: seven records hold the value 1 and
three are null. -/
def frameC2 : Frame :=
  ⟨10, some (List.replicate 7 (Cell.num 1) ++ List.replicate 3 Cell.null),
   none, none, none, none, none, none, none⟩

/-- **C2 counterexample**: on a batch with 7 values mapping and 3 nulls, 100%
of the non-null values map (so the claim's criterion accepts), yet
`robust_region_from_records`' step 1 rejects, because the source divides by
the whole column length (`mapped.notna().mean()`), nulls included: 7/10 < 0.8. -/
theorem step1_counterexample_nulls_in_denominator :
    step1AcceptedPerClaimC2 (List.replicate 7 (Cell.num 1) ++ List.replicate 3 Cell.null) ∧
    step1_direct frameC2 = none := by
  constructor
  · show ((7 : ℕ) : ℚ) / ((7 : ℕ) : ℚ) ≥ 0.8
    norm_num
  · have h : step1_direct frameC2 =
        if (((7 : ℕ) : ℚ) / ((10 : ℕ) : ℚ) ≥ 0.8) then
          some (List.replicate 7 (some R1) ++ List.replicate 3 none)
        else none := rfl
    rw [if_neg (by norm_num)] at h
    exact h

/-- **C2** (corrected): step 1 accepts iff some value of the "요양기관소재지"
column is numeric non-null **and** at least 80% of *all* rows of the batch
(nulls counted in the denominator) map to a canonical region; when accepted,
the mapped column is returned as-is. -/
theorem step1_accept_iff_ratio_over_all_rows (f : Frame) (col : List Cell)
    (h : f.yoyangLoc = some col) :
    ((step1_direct f).isSome ↔
      ((col.map toNumericCell).any Option.isSome = true ∧
        (((col.map toNumericCell).map
            (fun v => v.bind (fun n => REGION_MAP_1TO5.lookup n))).countP
              Option.isSome : ℚ) / col.length ≥ 0.8)) ∧
    (∀ m, step1_direct f = some m →
      m = (col.map toNumericCell).map
            (fun v => v.bind (fun n => REGION_MAP_1TO5.lookup n))) := by
  unfold step1_direct
  rw [h]
  simp only [Option.some_bind]
  split_ifs with hAny hRatio
  · simp only [List.length_map] at hRatio
    constructor
    · exact iff_of_true rfl ⟨hAny, hRatio⟩
    · intro m hm
      exact (Option.some_inj.mp hm).symm
  · simp only [List.length_map] at hRatio
    constructor
    · exact iff_of_false (by simp) (fun hx => hRatio hx.2)
    · intro m hm
      simp at hm
  · constructor
    · exact iff_of_false (by simp) (fun hx => hAny hx.1)
    · intro m hm
      simp at hm

/-- Witness for the C2 theorem at the all-ones batch of scenario 1: every row
maps (10/10 ≥ 0.8), so step 1 accepts. -/
theorem step1_accept_iff_witness : (step1_direct frameC5).isSome = true := by
  have hc : ((([1, 1, 2, 3, 4, 5, 5, 5, 2, 1].map Cell.num).map toNumericCell).map
      (fun v => v.bind (fun n => REGION_MAP_1TO5.lookup n))).countP Option.isSome = 10 := by
    decide
  have hl : ([1, 1, 2, 3, 4, 5, 5, 5, 2, 1].map Cell.num).length = 10 := by decide
  exact (step1_accept_iff_ratio_over_all_rows frameC5 _ rfl).1.mpr
    ⟨by decide, by rw [hc, hl]; norm_num⟩

/-- **C4**: scheme selection is a majority vote over the observed code set:
scheme A is selected exactly when its key-overlap count strictly exceeds
scheme B's, every tie (zero counts included) selects scheme B, and any code
set with 10 hits against scheme A and 3 against scheme B selects scheme A. -/
theorem pick_scheme_majority_vote (codes : List String) :
    (pick_region_mapping codes = CODE_TO_REGION_A ↔ a_hits codes > b_hits codes) ∧
    (pick_region_mapping codes = CODE_TO_REGION_B ↔ a_hits codes ≤ b_hits codes) ∧
    (a_hits codes = b_hits codes → pick_region_mapping codes = CODE_TO_REGION_B) ∧
    (a_hits codes = 10 → b_hits codes = 3 → pick_region_mapping codes = CODE_TO_REGION_A) := by
  have hAB : CODE_TO_REGION_A ≠ CODE_TO_REGION_B := by decide
  by_cases h : a_hits codes > b_hits codes
  · rw [pick_region_mapping, if_pos h]
    exact ⟨iff_of_true rfl h, iff_of_false hAB (by omega),
           fun he => absurd h (by omega), fun _ _ => rfl⟩
  · rw [pick_region_mapping, if_neg h]
    exact ⟨iff_of_false (fun he => hAB he.symm) h, iff_of_true rfl (by omega),
           fun _ => rfl, fun h10 h3 => absurd (by omega : a_hits codes > b_hits codes) h⟩

/-- Witness for the C4 theorem: the concrete code set
{11,31,29,23,32,33,34,25,35,24} hits scheme A's keys in 10 places and scheme
B's in 3, and scheme A is selected; the empty code set is a (0,0) tie and
selects scheme B. -/
theorem pick_scheme_majority_vote_witness :
    a_hits ["11", "31", "29", "23", "32", "33", "34", "25", "35", "24"] = 10 ∧
    b_hits ["11", "31", "29", "23", "32", "33", "34", "25", "35", "24"] = 3 ∧
    pick_region_mapping ["11", "31", "29", "23", "32", "33", "34", "25", "35", "24"] =
      CODE_TO_REGION_A ∧
    pick_region_mapping [] = CODE_TO_REGION_B :=
  ⟨by decide, by decide,
   (pick_scheme_majority_vote
     ["11", "31", "29", "23", "32", "33", "34", "25", "35", "24"]).2.2.2
       (by decide) (by decide),
   (pick_scheme_majority_vote []).2.2.1 (by decide)⟩

/-- **C7**: the pre-rename name "강원도" and the post-rename name
"강원특별자치도" are both keys of `NAME_TO_REGION` and both map to the
canonical region "경기,강원"; a two-record batch carrying the two name
variants in its "시도" column resolves both records to that same region. -/
theorem gangwon_rename_both_variants_resolve_same :
    NAME_TO_REGION.lookup "강원도" = some "경기,강원" ∧
    NAME_TO_REGION.lookup "강원특별자치도" = some "경기,강원" ∧
    robust_region_from_records
        ⟨2, none, none, none, some [Cell.str "강원도", Cell.str "강원특별자치도"],
         none, none, none, none⟩ =
      [some "경기,강원", some "경기,강원"] := by
  refine ⟨by decide, by decide, by decide⟩

/-- **C9**: in the province-name step, the normalized-name fallback table is
consulted only when *no* record of the batch has a direct `NAME_TO_REGION`
match: if any record matches directly, the direct lookup column is returned
as-is (so a record whose name matches only after normalization stays null);
otherwise every record goes through `norm_nm` + `NORMNAME_TO_REGION`. -/
theorem name_step_norm_fallback_only_without_direct_match (names : List String) :
    ((names.any (fun s => (NAME_TO_REGION.lookup s).isSome)) = true →
      step3_names names = names.map (fun s => NAME_TO_REGION.lookup s)) ∧
    ((names.any (fun s => (NAME_TO_REGION.lookup s).isSome)) = false →
      step3_names names = names.map (fun s => NORMNAME_TO_REGION.lookup (norm_nm s))) := by
  have hcond : ∀ l : List String,
      (l.map (fun s => NAME_TO_REGION.lookup s)).any Option.isSome =
        l.any (fun s => (NAME_TO_REGION.lookup s).isSome) := by
    intro l
    induction l with
    | nil => rfl
    | cons a t ih => simp only [List.map_cons, List.any_cons, ih]
  constructor
  · intro h
    unfold step3_names
    rw [if_pos (by rw [hcond names]; exact h)]
  · intro h
    unfold step3_names
    rw [if_neg (by rw [hcond names, h]; simp)]

/-- Witness for the C9 theorem: in ["서울특별시", "서울시"] the first name
matches directly, so the whole batch is answered by direct lookup and
"서울시" (a key only after normalization, `norm_nm "서울시" = "서울"`) stays
null; the one-record batch ["서울시"] has no direct match and is answered by
the normalized table. -/
theorem name_step_norm_fallback_witness :
    step3_names ["서울특별시", "서울시"] =
      ["서울특별시", "서울시"].map (fun s => NAME_TO_REGION.lookup s) ∧
    step3_names ["서울특별시", "서울시"] = [some "서울,인천", none] ∧
    step3_names ["서울시"] =
      ["서울시"].map (fun s => NORMNAME_TO_REGION.lookup (norm_nm s)) ∧
    step3_names ["서울시"] = [some "서울,인천"] :=
  ⟨(name_step_norm_fallback_only_without_direct_match ["서울특별시", "서울시"]).1 (by decide),
   by decide,
   (name_step_norm_fallback_only_without_direct_match ["서울시"]).2 (by decide),
   by decide⟩

lemma lookup_eq_none_of_head_ne (key : String) (tbl : List (String × String))
    (h : ∀ p ∈ tbl, p.1.data.head? ≠ key.data.head?) : tbl.lookup key = none := by
  induction tbl with
  | nil => rfl
  | cons p rest ih =>
    have hne : (key == p.1) = false :=
      beq_eq_false_iff_ne.mpr fun hEq => h p (List.mem_cons_self p rest) (by rw [hEq])
    obtain ⟨k, v⟩ := p
    simp only [List.lookup, hne]
    exact ih fun q hq => h q (List.mem_cons_of_mem _ hq)

lemma keysA_head_ne_zero : ∀ p ∈ CODE_TO_REGION_A, p.1.data.head? ≠ some '0' := by decide

lemma keysB_head_ne_zero : ∀ p ∈ CODE_TO_REGION_B, p.1.data.head? ≠ some '0' := by decide

lemma first2digits_unfold (s : String) :
    first2digits s =
      if 2 ≤ (s.data.filter Char.isDigit).length then
        ⟨(s.data.filter Char.isDigit).take 2⟩
      else ⟨List.replicate (2 - (s.data.filter Char.isDigit).length) '0' ++
            s.data.filter Char.isDigit⟩ := rfl

/-- **C10**: `first2digits` removes every non-digit, takes the first two
remaining digits, and left-pads with zeros when fewer than two remain:
"1" gives "01", a digitless string gives "00", and since no key of scheme A
or scheme B starts with '0', a single-digit input can never equal a key of
either code table. -/
theorem first2digits_strip_pad_no_key_collision :
    first2digits "1" = "01" ∧
    (∀ s : String, 2 ≤ (s.data.filter Char.isDigit).length →
      (first2digits s).data = (s.data.filter Char.isDigit).take 2) ∧
    (∀ s : String, s.data.filter Char.isDigit = [] → first2digits s = "00") ∧
    (∀ (s : String) (c : Char), s.data.filter Char.isDigit = [c] →
      first2digits s = ⟨['0', c]⟩ ∧
      CODE_TO_REGION_A.lookup (first2digits s) = none ∧
      CODE_TO_REGION_B.lookup (first2digits s) = none) := by
  refine ⟨by decide, ?_, ?_, ?_⟩
  · intro s h
    rw [first2digits_unfold, if_pos h]
  · intro s h
    rw [first2digits_unfold, h]
    rfl
  · intro s c h
    have h1 : first2digits s = ⟨['0', c]⟩ := by
      rw [first2digits_unfold, h]
      rfl
    refine ⟨h1, ?_, ?_⟩
    · rw [h1]
      exact lookup_eq_none_of_head_ne _ _ fun p hp hh => keysA_head_ne_zero p hp hh
    · rw [h1]
      exact lookup_eq_none_of_head_ne _ _ fun p hp hh => keysB_head_ne_zero p hp hh

/-- Witness for the C10 theorem at concrete inputs: "xyz" has no digit and
pads to "00"; "q7w" keeps only the digit 7 and pads to "07", which is a key
of neither scheme; "9712345" keeps '9','7','1',... and truncates to "97". -/
theorem first2digits_strip_pad_witness :
    first2digits "xyz" = "00" ∧
    first2digits "q7w" = "07" ∧
    CODE_TO_REGION_A.lookup (first2digits "q7w") = none ∧
    CODE_TO_REGION_B.lookup (first2digits "q7w") = none ∧
    (first2digits "9712345").data = ['9', '7'] := by
  have h4 := first2digits_strip_pad_no_key_collision.2.2.2 "q7w" '7' (by decide)
  exact ⟨first2digits_strip_pad_no_key_collision.2.2.1 "xyz" (by decide),
         h4.1, h4.2.1, h4.2.2,
         (first2digits_strip_pad_no_key_collision.2.1 "9712345" (by decide)).trans (by decide)⟩

/-- **C8**: the CRS-normalisation decision rule of `build_region_gdf`:
a declared reference system is converted directly to EPSG:4326; with no
declared system, an extent coordinate of absolute value above 200 means
EPSG:5179 is assumed and then converted; otherwise EPSG:4326 is assumed
with no conversion. -/
theorem crs_decision_rule (g : GeoInput) :
    (∀ c, g.crs = some c → crs_decision g = CrsAction.toWGS84Direct) ∧
    (g.crs = none → (maxAbsBound g > 200 ↔
      crs_decision g = CrsAction.assume5179ThenWGS84)) ∧
    (g.crs = none → (¬ maxAbsBound g > 200 ↔
      crs_decision g = CrsAction.assume4326NoConvert)) := by
  refine ⟨?_, ?_, ?_⟩
  · intro c hc
    simp only [crs_decision, hc]
  · intro h
    simp only [crs_decision, h]
    split_ifs with hb
    · exact iff_of_true hb rfl
    · exact iff_of_false hb (by decide)
  · intro h
    simp only [crs_decision, h]
    split_ifs with hb
    · exact iff_of_false (fun hx => hx hb) (by decide)
    · exact iff_of_true hb rfl

/-- A boundary dataset with a declared CRS. -/
def geoDeclared : GeoInput :=
  ⟨true, some 5179, (0, 0, 0, 0), false, some [], some [], 0⟩

/-- A boundary dataset with no CRS and metric-scale extent coordinates. -/
def geoNoCrsBig : GeoInput :=
  ⟨true, none, (100000, 200000, 1200000, 2000000), false, some [], some [], 0⟩

/-- A boundary dataset with no CRS and lon/lat-scale extent coordinates. -/
def geoNoCrsSmall : GeoInput :=
  ⟨true, none, (126, 33, 130, 39), false, some [], some [], 0⟩

/-- Witness for the C8 theorem, one dataset per branch of the decision rule. -/
theorem crs_decision_rule_witness :
    crs_decision geoDeclared = CrsAction.toWGS84Direct ∧
    crs_decision geoNoCrsBig = CrsAction.assume5179ThenWGS84 ∧
    crs_decision geoNoCrsSmall = CrsAction.assume4326NoConvert :=
  ⟨(crs_decision_rule geoDeclared).1 5179 rfl,
   ((crs_decision_rule geoNoCrsBig).2.1 rfl).mp
     (by norm_num [maxAbsBound, geoNoCrsBig]),
   ((crs_decision_rule geoNoCrsSmall).2.2 rfl).mp
     (by norm_num [maxAbsBound, geoNoCrsSmall])⟩

/-- A readable boundary dataset whose reprojection call raises: two features
with codes "11"/"28" and Seoul/Incheon names. -/
def geoReprojFails : GeoInput :=
  ⟨true, some 5179, (0, 0, 0, 0), true,
   some [Cell.str "11", Cell.str "28"],
   some [Cell.str "서울특별시", Cell.str "인천광역시"], 2⟩

/-- A dataset `gpd.read_file` cannot read. -/
def geoUnreadable : GeoInput :=
  ⟨false, none, (0, 0, 0, 0), false, none, none, 0⟩

/-- **C3 counterexample**: for a dataset whose reprojection step raised, the
claim says the whole operation fails and no boundaries or coverage report are
produced; but the CRS branch sits in `try/except Exception: pass`, so
`build_region_gdf` swallows the error, continues, and returns a full result
(here the dissolved boundary list for the Seoul/Incheon region). -/
theorem build_region_gdf_reproj_error_still_returns :
    crs_step geoReprojFails = CrsOutcome.raisedIgnored ∧
    (build_region_gdf geoReprojFails).isOk = true ∧
    Except.map (fun out => out.regionBoundaries) (build_region_gdf geoReprojFails) =
      Except.ok [R1] := by
  refine ⟨rfl, rfl, rfl⟩

/-- **C3** (corrected): an unreadable boundary file makes `build_region_gdf`
fail as a whole with a propagated error and no result, but a raising
reprojection is caught and ignored (`try/except: pass`): whenever the file is
readable and the CTPRVN_CD/CTP_KOR_NM columns exist, a full output (region
boundaries plus coverage report) is returned, recording that the CRS step
raised. -/
theorem build_region_gdf_failure_modes (g : GeoInput) :
    (g.readable = false → build_region_gdf g = Except.error "read_file raised") ∧
    (g.readable = true → ∀ cs ns, g.codes = some cs → g.names = some ns →
      build_region_gdf g = Except.ok
        { crsOutcome := crs_step g
          regionBoundaries := ((gdfRegion g).filterMap id).eraseDups
          coverage :=
            { codeCoveragePct := coveragePct (gdfRegionCode g)
              nameCoveragePct := coveragePct (gdfRegionName g)
              finalCoveragePct := coveragePct (gdfRegion g)
              unmappedRows := (gdfRegion g).countP Option.isNone
              schemeUsed :=
                some (if pick_region_mapping
                        (cs.map (fun c => first2digits (astypeStr c))) =
                      CODE_TO_REGION_A then Scheme.A else Scheme.B) } }) := by
  constructor
  · intro h
    unfold build_region_gdf
    rw [h]
    rfl
  · intro h cs ns hcs hns
    unfold build_region_gdf
    rw [h, hcs, hns]
    rfl

/-- Witness for the C3 theorem: the unreadable dataset errors; the readable
dataset with a raising reprojection still returns a result. -/
theorem build_region_gdf_failure_modes_witness :
    build_region_gdf geoUnreadable = Except.error "read_file raised" ∧
    (build_region_gdf geoReprojFails).isOk = true := by
  constructor
  · exact (build_region_gdf_failure_modes geoUnreadable).1 rfl
  · rw [(build_region_gdf_failure_modes geoReprojFails).2 rfl _ _ rfl rfl]
    rfl
